import Mathlib

/-!
Shallow embedding of the chat-watch core of `src/app.py` (YouTube Live Bot):
persona normalization, persona prompt construction, the reply gate
(`ChatWatcher._should_reply`), the watch loop body (`ChatWatcher.run`),
the chat log (`append_chat` / `render_chat_log`) and `stop_watch`.
-/

namespace YTBot

/-! ### A small model of Python values, for `normalize_personas`

`normalize_personas` receives an arbitrary decoded-JSON dictionary and reads
it with `dict.get`, `or`-fallbacks and `for` loops.  We model the values it
can see and the dynamic (duck-typed) behaviour of those operations,
including the `AttributeError` / `TypeError` raised on ill-typed input. -/

inductive PyVal where
  | pynone
  | pyint (n : ℤ)
  | pystr (s : String)
  | pylist (xs : List PyVal)
  | pydict (kvs : List (String × PyVal))

inductive PyErr where
  | attributeError
  | typeError
deriving DecidableEq

/-- Python truthiness of the modelled values. -/
def truthy : PyVal → Bool
  | .pynone => false
  | .pyint n => n != 0
  | .pystr s => s != ""
  | .pylist xs => !xs.isEmpty
  | .pydict kvs => !kvs.isEmpty

/-- Python `a or b` (returns `a` when truthy, else `b`). -/
def pyOr (a b : PyVal) : PyVal := if truthy a then a else b

/-- `dict.get(k)` on an association list (keys unique, insertion order);
returns `None` when the key is absent. -/
def dictGet (kvs : List (String × PyVal)) (k : String) : PyVal :=
  match kvs.find? (fun kv => kv.1 == k) with
  | some kv => kv.2
  | none => .pynone

/-- `v.get(k)`: `AttributeError` unless `v` is a dict. -/
def pyGet (v : PyVal) (k : String) : Except PyErr PyVal :=
  match v with
  | .pydict kvs => .ok (dictGet kvs k)
  | _ => .error .attributeError

/-- `for x in v`: lists yield their elements, strings their characters,
dicts their keys; other values raise `TypeError`. -/
def pyIter : PyVal → Except PyErr (List PyVal)
  | .pylist xs => .ok xs
  | .pystr s => .ok (s.data.map fun c => .pystr (String.mk [c]))
  | .pydict kvs => .ok (kvs.map fun kv => .pystr kv.1)
  | _ => .error .typeError

/-! ### Dynamic persona records built by `normalize_personas`

The dataclasses `Persona` / `Character` / `CharacterGreetings` declare `str`
and `List[str]` fields, but at runtime `normalize_personas` stores whatever
truthy value the input supplied; the `Dyn` structures record that. -/

structure CharacterGreetingsDyn where
  start : PyVal
  endText : PyVal
  replies : PyVal

structure CharacterDyn where
  name : PyVal
  greetings : CharacterGreetingsDyn

structure PersonaDyn where
  name : PyVal
  characters : List CharacterDyn

def defaultStartText : String :=
  "皆さん、こんにちは！配信へようこそ！一緒に楽しんでいきましょう！"

def defaultEndText : String :=
  "今日もありがとうございました！また次回の配信でお会いしましょう！お疲れ様でした！"

/-- The built-in fallback persona list used when no personas were parsed. -/
def defaultPersonas : List PersonaDyn :=
  [{ name := .pystr "デフォルト"
     characters :=
       [{ name := .pystr "配信者"
          greetings :=
            { start := .pystr "皆さん、こんにちは！配信へようこそ！"
              endText := .pystr "今日もありがとうございました！"
              replies := .pylist
                [.pystr "すごい！", .pystr "なるほど！",
                 .pystr "面白いですね！", .pystr "応援してます！"] } }] }]

/-- One character entry of `normalize_personas`'s inner loop.  The source's
trailing `if replies is None: replies = []` is unreachable after
`g.get("replies") or []` and is not repeated here. -/
def normChar (c : PyVal) : Except PyErr CharacterDyn :=
  match c with
  | .pydict ck =>
    let cname := pyOr (dictGet ck "name") (pyOr (dictGet ck "title") (.pystr "キャラ"))
    let g := pyOr (dictGet ck "greetings")
               (pyOr (dictGet ck "characterGreetings") (.pydict []))
    do
      let startv ← pyGet g "start"
      let endv ← pyGet g "end"
      let repliesv ← pyGet g "replies"
      pure { name := cname
             greetings :=
               { start := pyOr startv (.pystr defaultStartText)
                 endText := pyOr endv (.pystr defaultEndText)
                 replies := pyOr repliesv (.pylist []) } }
  | _ => .error .attributeError

def normCharList : List PyVal → Except PyErr (List CharacterDyn)
  | [] => .ok []
  | c :: rest => do
    let cd ← normChar c
    let rest' ← normCharList rest
    pure (cd :: rest')

/-- One persona entry of `normalize_personas`'s outer loop. -/
def normPersona (p : PyVal) : Except PyErr PersonaDyn :=
  match p with
  | .pydict pk =>
    let pname := pyOr (dictGet pk "name") (pyOr (dictGet pk "title") (.pystr "デフォルト"))
    let charsRaw := pyOr (dictGet pk "characters") (pyOr (dictGet pk "list") (.pylist []))
    do
      let cl ← pyIter charsRaw
      let cs ← normCharList cl
      pure { name := pname, characters := cs }
  | _ => .error .attributeError

def normPersonaList : List PyVal → Except PyErr (List PersonaDyn)
  | [] => .ok []
  | p :: rest => do
    let pd ← normPersona p
    let rest' ← normPersonaList rest
    pure (pd :: rest')

/-- `normalize_personas(raw)` of `src/app.py`.  All `raw.get` calls are on the
same receiver, so a non-dict input fails at the first `.get`. -/
def normalize_personas (raw : PyVal) : Except PyErr (List PersonaDyn) :=
  match raw with
  | .pydict rk =>
    let items := pyOr (dictGet rk "personas")
                   (pyOr (dictGet rk "data") (pyOr (dictGet rk "list") (.pylist [])))
    do
      let itemList ← pyIter items
      let ps ← normPersonaList itemList
      pure (if ps.isEmpty then defaultPersonas else ps)
  | _ => .error .attributeError

/-! ### Typed persona records (the dataclass field types)

The watch loop and prompt builder consume personas that honour the declared
dataclass types (`str` names and greetings, `List[str]` replies). -/

structure CharacterGreetings where
  start : String
  endText : String
  replies : List String
deriving DecidableEq

structure Character where
  name : String
  greetings : CharacterGreetings
deriving DecidableEq

structure Persona where
  name : String
  characters : List Character
deriving DecidableEq

/-- `build_persona_prompt(persona, character)` of `src/app.py`.
(`character.greetings.replies or []` is the identity on the typed `List`
field and is dropped.) -/
def build_persona_prompt (persona : Persona) (character : Character) : String :=
  let replies := character.greetings.replies
  let style := if replies.isEmpty then "丁寧"
               else String.intercalate " / " (replies.take 6)
  "あなたは『" ++ persona.name ++ "』のキャラクター『" ++ character.name ++
    "』として返信します。 50文字以内の短い応答を1つだけ返してください。絵文字は控えめに。 参考フレーズ:" ++ style

/-- Outcome of one `model.generate_content` call: an exception, or a response
whose `.text` may be `None`. -/
inductive GenOutcome where
  | failure
  | ok (text : Option String)

/-- `generate_ai_reply(model, persona, character, user_text)`: empty string
when no model is configured, on a service exception, or when the stripped
text is empty; otherwise the stripped text truncated to 50 characters. -/
def generate_ai_reply (hasModel : Bool) (svc : String → GenOutcome)
    (persona : Persona) (character : Character) (userText : String) : String :=
  if !hasModel then ""
  else
    match svc (build_persona_prompt persona character ++ "\nユーザー: " ++ userText) with
    | .failure => ""
    | .ok t => ((t.getD "").trim).take 50

/-! ### The reply gate (`ChatWatcher._should_reply`)

`last_reply_at` is a Python dict from author channel id (possibly `None`,
since `authorDetails.get("channelId")` may be absent) to a clock value;
we model clock values exactly as rationals. -/

abbrev Author := Option String
abbrev RateTable := List (Author × ℚ)

/-- `self.last_reply_at.get(author, 0)`. -/
def tableGet (t : RateTable) (a : Author) : ℚ :=
  match t.find? (fun kv => kv.1 == a) with
  | some kv => kv.2
  | none => 0

/-- `self.last_reply_at[author] = v` (dicts keep insertion order). -/
def tableSet : RateTable → Author → ℚ → RateTable
  | [], a, v => [(a, v)]
  | kv :: rest, a, v => if kv.1 == a then (a, v) :: rest else kv :: tableSet rest a v

/-- Truthiness of the optional `my_channel_id` string. -/
def optTruthy : Option String → Bool
  | none => false
  | some s => s != ""

/-- Static configuration of one `ChatWatcher`. -/
structure WatcherCfg where
  myChannelId : Option String
  autoReply : Bool
  hasModel : Bool
  rateLimitSec : ℚ
  persona : Persona
  character : Character

/-- `ChatWatcher._should_reply(author_channel_id)` at clock value `now`,
returning the decision and the updated `last_reply_at` table. -/
def should_reply (cfg : WatcherCfg) (table : RateTable) (author : Author)
    (now : ℚ) : Bool × RateTable :=
  if !cfg.autoReply || !cfg.hasModel then (false, table)
  else if optTruthy cfg.myChannelId && author == cfg.myChannelId then (false, table)
  else if now - tableGet table author < cfg.rateLimitSec then (false, table)
  else (true, tableSet table author now)

/-! ### The watch loop body (`ChatWatcher.run`)

One fetched item of `liveChatMessages.list`, reduced to the fields the loop
reads.  `externalId` models `item["id"]`; the loop never reads it, and it is
carried here only so that claims about repeated ids can be stated.
`clockAt` is the `time.time()` value observed when the item is processed. -/

structure Item where
  externalId : String
  messageText : Option String
  publishedAt : Option String
  displayName : Option String
  channelId : Option String
  isChatOwner : Bool
  isChatModerator : Bool
  clockAt : ℚ

/-- One page of `liveChatMessages.list`. -/
structure Page where
  items : List Item
  nextPageToken : Option String
  pollingIntervalMillis : Option ℚ

/-- One row handed to `on_message` (= `append_chat`). -/
structure ChatRow where
  time : Option String
  author : String
  text : String
  owner : Bool
  bot : Bool
  sent : Option Bool
deriving DecidableEq

/-- Loop-local watcher state threaded across pages. -/
structure WState where
  nextPageToken : Option String
  pollingInterval : ℚ
  table : RateTable

/-- Environment of external effects seen by the loop: the generative service,
the transport's send result, and the wall clock used for bot rows. -/
structure Env where
  svc : String → GenOutcome
  sendOk : String → Bool
  nowIso : String

/-- The user `DisplayRecord` built for a text item. -/
def userRowOf (it : Item) (text : String) : ChatRow :=
  { time := it.publishedAt
    author := it.displayName.getD "?"
    text := text
    owner := it.isChatOwner || it.isChatModerator
    bot := false
    sent := none }

/-- The body of `for item in resp.get("items", [])` for one item: the updated
rate table, the rows appended via `on_message`, and the texts sent through
the transport. -/
def processItem (cfg : WatcherCfg) (env : Env) (table : RateTable) (it : Item) :
    RateTable × List ChatRow × List String :=
  match it.messageText with
  | none => (table, [], [])
  | some text =>
    let (auth, table') := should_reply cfg table it.channelId it.clockAt
    if auth then
      let reply := generate_ai_reply cfg.hasModel env.svc cfg.persona cfg.character text
      if reply != "" then
        let ok := env.sendOk reply
        (table', [userRowOf it text,
                  { time := some env.nowIso, author := "Bot", text := reply,
                    owner := true, bot := true, sent := some ok }], [reply])
      else (table', [userRowOf it text], [])
    else (table', [userRowOf it text], [])

/-- The item loop over one page's items, in the order returned. -/
def processItems (cfg : WatcherCfg) (env : Env) :
    RateTable → List Item → RateTable × List ChatRow × List String
  | table, [] => (table, [], [])
  | table, it :: rest =>
    let (t1, rows1, sends1) := processItem cfg env table it
    let (t2, rows2, sends2) := processItems cfg env t1 rest
    (t2, rows1 ++ rows2, sends1 ++ sends2)

/-- One successful poll cycle of `ChatWatcher.run`: store `nextPageToken`,
compute `polling_interval = max(1.0, resp.get("pollingIntervalMillis", 3000)
/ 1000.0)`, then process the items. -/
def processPage (cfg : WatcherCfg) (env : Env) (st : WState) (page : Page) :
    WState × List ChatRow × List String :=
  let interval := max 1 ((page.pollingIntervalMillis.getD 3000) / 1000)
  let (table', rows, sends) := processItems cfg env st.table page.items
  ({ nextPageToken := page.nextPageToken, pollingInterval := interval,
     table := table' }, rows, sends)

/-- A run of the loop over a sequence of fetched pages (the non-throwing
path; errors and sleeps do not affect the rows and decisions modelled). -/
def runPages (cfg : WatcherCfg) (env : Env) :
    WState → List Page → WState × List ChatRow × List String
  | st, [] => (st, [], [])
  | st, page :: rest =>
    let (st1, rows1, sends1) := processPage cfg env st page
    let (st2, rows2, sends2) := runPages cfg env st1 rest
    (st2, rows1 ++ rows2, sends1 ++ sends2)

/-- Initial watcher state (`next_page_token = None`, `polling_interval = 3.0`,
`last_reply_at = {}`). -/
def initialWState : WState :=
  { nextPageToken := none, pollingInterval := 3, table := [] }

/-! ### The chat log (`append_chat`, `render_chat_log`) -/

/-- `append_chat(row)`: appends to `st.session_state.chat_log`. -/
def append_chat (log : List ChatRow) (row : ChatRow) : List ChatRow :=
  log ++ [row]

/-- A sequence of `append_chat` calls in order. -/
def appendAll (log : List ChatRow) (rows : List ChatRow) : List ChatRow :=
  rows.foldl append_chat log

/-- `render_chat_log` iterates `st.session_state.chat_log[-800:]`: the view
shown to the presentation layer is the last 800 stored rows. -/
def render_chat_log (log : List ChatRow) : List ChatRow :=
  log.drop (log.length - 800)

/-! ### `stop_watch(send_goodbye)` -/

/-- The dashboard session state read and written by `stop_watch`. -/
structure Session where
  watcherAlive : Bool
  ytConnected : Bool
  ytLiveChatId : String
  endOverride : Option String
  currentCharacter : Option Character

/-- `st.session_state.get(end_key) or (ch.greetings.end if ch else ...)`. -/
def resolveEndMsg (s : Session) : String :=
  let fallback := match s.currentCharacter with
    | some ch => ch.greetings.endText
    | none => "ご視聴ありがとうございました！"
  match s.endOverride with
  | some t => if t != "" then t else fallback
  | none => fallback

/-- `stop_watch(send_goodbye)` of `src/app.py`: join the watcher thread if
alive, then — whenever `send_goodbye` and `yt_connected` (never cleared) —
send the end greeting and append a bot row with `sent: True`.  Returns the
new session state, the texts sent and the rows appended. -/
def stop_watch (nowIso : String) (s : Session) (sendGoodbye : Bool) :
    Session × List String × List ChatRow :=
  let s1 := if s.watcherAlive then { s with watcherAlive := false } else s
  if sendGoodbye && s1.ytConnected then
    let endMsg := resolveEndMsg s1
    if s1.ytLiveChatId != "" then
      (s1, [endMsg],
        [{ time := some nowIso, author := "Bot", text := endMsg,
           owner := true, bot := true, sent := some true }])
    else (s1, [], [])
  else (s1, [], [])

/-! ### Gate traces

A run of `_should_reply` over a sequence of calls, each call annotated with
its author, its clock value and the decision returned. -/

def gateRunAnn (cfg : WatcherCfg) : RateTable → List (Author × ℚ) → List (Author × ℚ × Bool)
  | _, [] => []
  | table, (a, t) :: rest =>
    let (r, table') := should_reply cfg table a t
    (a, t, r) :: gateRunAnn cfg table' rest

/-! ### Lemmas about the rate-limit table and the gate -/

lemma tableGet_cons (kv : Author × ℚ) (l : RateTable) (a : Author) :
    tableGet (kv :: l) a = if kv.1 == a then kv.2 else tableGet l a := by
  by_cases h : kv.1 == a <;> simp [tableGet, List.find?_cons, h]

lemma tableGet_tableSet_self (t : RateTable) (a : Author) (v : ℚ) :
    tableGet (tableSet t a v) a = v := by
  induction t with
  | nil => simp [tableSet, tableGet]
  | cons kv rest ih =>
    by_cases h : kv.1 == a
    · simp [tableSet, h, tableGet_cons]
    · simp [tableSet, h, tableGet_cons, ih]

lemma tableGet_tableSet_other (t : RateTable) (a b : Author) (v : ℚ) (h : a ≠ b) :
    tableGet (tableSet t a v) b = tableGet t b := by
  induction t with
  | nil => simp [tableSet, tableGet_cons, tableGet, h]
  | cons kv rest ih =>
    by_cases hk : kv.1 == a
    · have : kv.1 = a := by simpa using hk
      simp [tableSet, hk, tableGet_cons, h, this]
    · simp [tableSet, hk, tableGet_cons, ih]

lemma should_reply_true_spacing (cfg : WatcherCfg) (table : RateTable)
    (a : Author) (now : ℚ) (h : (should_reply cfg table a now).1 = true) :
    cfg.rateLimitSec ≤ now - tableGet table a := by
  unfold should_reply at h
  split_ifs at h with h1 h2 h3
  exact le_of_not_lt h3

lemma should_reply_true_updates (cfg : WatcherCfg) (table : RateTable)
    (a : Author) (now : ℚ) (h : (should_reply cfg table a now).1 = true) :
    tableGet (should_reply cfg table a now).2 a = now := by
  unfold should_reply at h ⊢
  split_ifs at h ⊢ with h1 h2 h3
  exact tableGet_tableSet_self table a now

lemma should_reply_table_mono (cfg : WatcherCfg) (h : 0 ≤ cfg.rateLimitSec)
    (table : RateTable) (a : Author) (now : ℚ) (b : Author) :
    tableGet table b ≤ tableGet (should_reply cfg table a now).2 b := by
  unfold should_reply
  split_ifs with h1 h2 h3
  · simp
  · simp
  · simp
  · by_cases hab : a = b
    · subst hab
      rw [tableGet_tableSet_self]
      have := le_of_not_lt h3
      linarith
    · rw [tableGet_tableSet_other table a b now hab]

lemma gateRunAnn_cons (cfg : WatcherCfg) (table : RateTable) (a : Author)
    (t : ℚ) (rest : List (Author × ℚ)) :
    gateRunAnn cfg table ((a, t) :: rest) =
      (a, t, (should_reply cfg table a t).1) ::
        gateRunAnn cfg (should_reply cfg table a t).2 rest := rfl

/-- Once the table holds at least `v` for author `a`, every later authorized
call for `a` in the trace happens at a clock value at least `v + cooldown`. -/
lemma gateRunAnn_later_ge (cfg : WatcherCfg) (h : 0 ≤ cfg.rateLimitSec)
    (trace : List (Author × ℚ)) :
    ∀ (table : RateTable) (a : Author) (v : ℚ), v ≤ tableGet table a →
      ∀ y ∈ gateRunAnn cfg table trace, y.1 = a → y.2.2 = true →
        v + cfg.rateLimitSec ≤ y.2.1 := by
  induction trace with
  | nil =>
    intro table a v _ y hy
    simp [gateRunAnn] at hy
  | cons head rest ih =>
    obtain ⟨a₀, t₀⟩ := head
    intro table a v hv y hy hya hyt
    rw [gateRunAnn_cons] at hy
    rcases List.mem_cons.mp hy with hEq | hMem
    · subst hEq
      have ha : a₀ = a := hya
      subst ha
      have hsp := should_reply_true_spacing cfg table a₀ t₀ hyt
      linarith
    · exact ih (should_reply cfg table a₀ t₀).2 a v
        (le_trans hv (should_reply_table_mono cfg h table a₀ t₀ a)) y hMem hya hyt

/-- Along any gate trace, two authorized calls for the same author are at
least one cooldown apart in clock value (earlier call first). -/
lemma gate_cooldown_spacing (cfg : WatcherCfg) (h : 0 ≤ cfg.rateLimitSec)
    (trace : List (Author × ℚ)) :
    ∀ table : RateTable,
      List.Pairwise (fun x y : Author × ℚ × Bool =>
        x.1 = y.1 → x.2.2 = true → y.2.2 = true →
          x.2.1 + cfg.rateLimitSec ≤ y.2.1)
        (gateRunAnn cfg table trace) := by
  induction trace with
  | nil => intro table; simp [gateRunAnn]
  | cons head rest ih =>
    obtain ⟨a₀, t₀⟩ := head
    intro table
    rw [gateRunAnn_cons]
    refine List.Pairwise.cons ?_ (ih _)
    intro y hy hxy hxt hyt
    have hupd := should_reply_true_updates cfg table a₀ t₀ hxt
    refine gateRunAnn_later_ge cfg h rest _ y.1 t₀ ?_ y hy rfl hyt
    rw [← hxy, hupd]

/-! ### Example data used by witnesses and counterexamples -/

def sampleCharacter : Character :=
  { name := "配信者"
    greetings := { start := "皆さん、こんにちは！配信へようこそ！"
                   endText := "今日もありがとうございました！"
                   replies := ["すごい！", "なるほど！"] } }

def samplePersona : Persona :=
  { name := "デフォルト", characters := [sampleCharacter] }

/-- A watcher with auto-reply on, a model configured and no own channel id
(the `my_channel_id` default of `init_session_state`). -/
def sampleGateCfg : WatcherCfg :=
  { myChannelId := none, autoReply := true, hasModel := true, rateLimitSec := 15,
    persona := samplePersona, character := sampleCharacter }

/-! ### C3: per-author cooldown -/

/-- C3: an authorizing call records the author's clock value in the
rate-limit table before returning true, and along any sequence of gate
calls two calls with the same author identity whose clock values differ by
less than the cooldown never both return true. -/
theorem should_reply_cooldown_single_authorization (cfg : WatcherCfg)
    (h : 0 ≤ cfg.rateLimitSec) :
    (∀ (table : RateTable) (a : Author) (now : ℚ),
        (should_reply cfg table a now).1 = true →
          tableGet (should_reply cfg table a now).2 a = now) ∧
    ∀ (table : RateTable) (trace : List (Author × ℚ)),
      List.Pairwise (fun x y : Author × ℚ × Bool =>
        x.1 = y.1 → |y.2.1 - x.2.1| < cfg.rateLimitSec →
          ¬(x.2.2 = true ∧ y.2.2 = true)) (gateRunAnn cfg table trace) := by
  constructor
  · exact fun table a now => should_reply_true_updates cfg table a now
  · intro table trace
    refine (gate_cooldown_spacing cfg h trace table).imp ?_
    intro x y hR hxy habs hboth
    have hle := hR hxy hboth.1 hboth.2
    have habs' := abs_lt.mp habs
    linarith [habs'.2]

/-- Witness for C3: author "A" calls at clock 100 (authorized) and clock 110
(rejected, 10 s < 15 s); the pairwise exclusion holds on this trace. -/
theorem should_reply_cooldown_single_authorization_witness :
    gateRunAnn sampleGateCfg [] [(some "A", 100), (some "A", 110)] =
      [(some "A", 100, true), (some "A", 110, false)] ∧
    List.Pairwise (fun x y : Author × ℚ × Bool =>
      x.1 = y.1 → |y.2.1 - x.2.1| < sampleGateCfg.rateLimitSec →
        ¬(x.2.2 = true ∧ y.2.2 = true))
      (gateRunAnn sampleGateCfg [] [(some "A", 100), (some "A", 110)]) := by
  constructor
  · simp [gateRunAnn, should_reply, sampleGateCfg, tableGet, tableSet, optTruthy]
    norm_num
  · exact (should_reply_cooldown_single_authorization sampleGateCfg
      (by norm_num [sampleGateCfg])).2 [] _

/-! ### C4: no reply to the bot's own messages -/

/-- C4 counterexample: with `my_channel_id` unset (`None`, the
`init_session_state` default) an author whose identity equals the bot's
(also `None`) is still authorized — the self-check is skipped entirely
because `if self.my_channel_id and ...` short-circuits on a falsy id. -/
theorem should_reply_self_unset_authorizes :
    (should_reply sampleGateCfg [] none 100).1 = true := by
  simp [should_reply, sampleGateCfg, optTruthy, tableGet]
  norm_num

/-- A watcher whose own channel id is configured (non-empty). -/
def selfGateCfg : WatcherCfg :=
  { myChannelId := some "UC_me", autoReply := true, hasModel := true,
    rateLimitSec := 15, persona := samplePersona, character := sampleCharacter }

/-- C4 (amended): whenever the configured own channel id is truthy (a
non-empty string), the gate returns false for every message whose author
identity equals it; when the id is unset or empty the self-check is
skipped and such a message can be authorized. -/
theorem should_reply_rejects_self (cfg : WatcherCfg) (table : RateTable)
    (author : Author) (now : ℚ) (hset : optTruthy cfg.myChannelId = true)
    (hself : author = cfg.myChannelId) :
    (should_reply cfg table author now).1 = false := by
  subst hself
  simp [should_reply, hset]

/-- Witness for C4 (amended): author "UC_me" equals the configured own
channel id "UC_me" and is rejected. -/
theorem should_reply_rejects_self_witness :
    (should_reply selfGateCfg [] (some "UC_me") 100).1 = false :=
  should_reply_rejects_self selfGateCfg [] (some "UC_me") 100 (by decide) rfl

/-! ### C1: deduplication by external message id -/

/-- Number of fetched items carrying text, across a page sequence. -/
def countTextItems (pages : List Page) : ℕ :=
  (pages.map (fun pg => pg.items.countP (fun it => it.messageText.isSome))).sum

lemma processItem_user_count (cfg : WatcherCfg) (env : Env) (table : RateTable)
    (it : Item) :
    ((processItem cfg env table it).2.1.countP (fun r => !r.bot)) =
      if it.messageText.isSome then 1 else 0 := by
  cases h : it.messageText with
  | none => simp [processItem, h]
  | some text =>
    rcases h2 : should_reply cfg table it.channelId it.clockAt with ⟨auth, table2⟩
    cases auth
    · simp [processItem, h, h2, userRowOf]
    · simp only [processItem, h, h2]
      split_ifs <;> simp_all [userRowOf]

lemma processItems_user_count (cfg : WatcherCfg) (env : Env) (items : List Item) :
    ∀ table : RateTable,
      ((processItems cfg env table items).2.1.countP (fun r => !r.bot)) =
        items.countP (fun it => it.messageText.isSome) := by
  induction items with
  | nil => intro table; simp [processItems]
  | cons it rest ih =>
    intro table
    rcases h1 : processItem cfg env table it with ⟨t1, rows1, sends1⟩
    simp [processItems, h1, List.countP_cons, List.countP_append]
    have := processItem_user_count cfg env table it
    rw [h1] at this
    simp at this
    rw [this, ih t1]
    cases hm : it.messageText <;> simp [hm, Nat.add_comm]

/-- C1 (amended): the watch loop performs no deduplication by external
message id: it appends exactly one user `DisplayRecord` per fetched item
that carries text, however often an external id repeats across pages;
duplicate suppression relies solely on the transport's page cursor. -/
theorem run_one_record_per_text_item (cfg : WatcherCfg) (env : Env)
    (st : WState) (pages : List Page) :
    ((runPages cfg env st pages).2.1.countP (fun r => !r.bot)) =
      countTextItems pages := by
  induction pages generalizing st with
  | nil => simp [runPages, countTextItems]
  | cons page rest ih =>
    rcases h1 : processPage cfg env st page with ⟨st1, rows1, sends1⟩
    simp [runPages, h1, List.countP_append, countTextItems]
    have hpage : rows1.countP (fun r => !r.bot) =
        page.items.countP (fun it => it.messageText.isSome) := by
      have := processItems_user_count cfg env page.items st.table
      simp [processPage] at h1
      rcases h3 : processItems cfg env st.table page.items with ⟨tt, rr, ss⟩
      rw [h3] at this h1
      simp at this
      cases h1 with
      | intro hst hrows =>
        simp at hrows
        rw [← hrows.1]
        exact this
    rw [hpage]
    have := ih st1
    simp [countTextItems] at this
    rw [this]

/-- The same user message (external id "m1") as delivered on two successive
pages; the two clock values are three seconds apart. -/
def dupItemA : Item :=
  { externalId := "m1", messageText := some "こんにちは"
    publishedAt := some "2024-01-01T00:00:00Z", displayName := some "alice"
    channelId := some "UC_alice", isChatOwner := false, isChatModerator := false
    clockAt := 1000 }

def dupItemB : Item :=
  { dupItemA with clockAt := 1003 }

/-- Two overlapping pages, each repeating external id "m1". -/
def dupPages : List Page :=
  [{ items := [dupItemA], nextPageToken := some "tok2", pollingIntervalMillis := some 3000 },
   { items := [dupItemB], nextPageToken := none, pollingIntervalMillis := some 3000 }]

/-- An environment whose generative service always fails and whose
transport accepts every send. -/
def envFail : Env :=
  { svc := fun _ => .failure, sendOk := fun _ => true
    nowIso := "2024-01-01T00:00:05+09:00" }

/-- C1 counterexample: every item of `dupPages` carries external id "m1",
yet the run appends two `DisplayRecord`s (and consults the gate for each
occurrence), not exactly one. -/
theorem run_duplicate_id_two_records :
    (dupPages.all fun pg => pg.items.all fun it => it.externalId == "m1") = true ∧
    ((runPages sampleGateCfg envFail initialWState dupPages).2.1.length = 2) := by
  constructor
  · rfl
  · simp [runPages, processPage, processItems, processItem, dupPages, dupItemA,
      dupItemB, envFail, initialWState, should_reply, sampleGateCfg, optTruthy,
      tableGet, tableSet, generate_ai_reply]

/-! ### C2: at-most-one end greeting per session -/

/-- A connected session with a live watcher, right before `stop_watch`. -/
def connectedSession : Session :=
  { watcherAlive := true, ytConnected := true, ytLiveChatId := "chat1",
    endOverride := none, currentCharacter := some sampleCharacter }

/-- C2: no farewell latch exists — `yt_connected` is never cleared by
`stop_watch`, so each of two consecutive `stop_watch(send_goodbye=True)`
calls in the same connected session transmits the end greeting again: two
sends where the claim allows at most one. -/
theorem stop_watch_double_farewell :
    ((stop_watch "T1" connectedSession true).2.1 =
        [sampleCharacter.greetings.endText]) ∧
    ((stop_watch "T2" (stop_watch "T1" connectedSession true).1 true).2.1 =
        [sampleCharacter.greetings.endText]) := by
  constructor
  · simp [stop_watch, connectedSession, resolveEndMsg]
  · simp [stop_watch, connectedSession, resolveEndMsg]

/-! ### C5: chat log order and retention -/

lemma appendAll_eq (log rows : List ChatRow) : appendAll log rows = log ++ rows := by
  induction rows generalizing log with
  | nil => simp [appendAll]
  | cons r rs ih =>
    have : appendAll log (r :: rs) = appendAll (log ++ [r]) rs := rfl
    rw [this, ih]
    simp [append_chat]

/-- C5 counterexample: after 801 appends the stored chat log holds 801
records — `append_chat` never discards, so the log itself exceeds the
800-record retention bound. -/
theorem chat_log_exceeds_bound :
    ¬((appendAll []
        (List.replicate 801
          { time := none, author := "u", text := "x", owner := false,
            bot := false, sent := none })).length ≤ 800) := by
  rw [appendAll_eq]
  simp only [List.nil_append, List.length_replicate]
  omega

/-- C5 (amended): the chat log preserves append order exactly (a sequence
of `append_chat` calls appends at the tail, never reordering), but the
stored list is unbounded; the 800-record retention bound is applied only
read-side by `render_chat_log`, whose result is an order-preserving suffix
of at most the last 800 stored records. -/
theorem chat_log_order_and_render_bound (log rows : List ChatRow) :
    appendAll log rows = log ++ rows ∧
    (render_chat_log (appendAll log rows)).length ≤ 800 ∧
    List.IsSuffix (render_chat_log (appendAll log rows)) (appendAll log rows) := by
  refine ⟨appendAll_eq log rows, ?_, ?_⟩
  · rw [appendAll_eq, render_chat_log]
    simp only [List.length_drop]
    omega
  · rw [appendAll_eq, render_chat_log]
    exact List.drop_suffix _ _

/-! ### C6: generation failure skips the reply -/

/-- C6: when the gate authorizes a reply but the generative service fails
or yields only whitespace, the loop appends just the user record, sends
nothing, and goes on to the remaining items. -/
theorem generation_failure_skips_send (cfg : WatcherCfg) (env : Env)
    (table : RateTable) (it : Item) (rest : List Item) (txt : String)
    (htext : it.messageText = some txt)
    (_hauth : (should_reply cfg table it.channelId it.clockAt).1 = true)
    (hfail :
      env.svc (build_persona_prompt cfg.persona cfg.character ++ "\nユーザー: " ++ txt)
          = .failure ∨
      ∃ t, env.svc (build_persona_prompt cfg.persona cfg.character ++ "\nユーザー: " ++ txt)
          = .ok t ∧ (t.getD "").trim = "") :
    processItems cfg env table (it :: rest) =
      (let next :=
        processItems cfg env (should_reply cfg table it.channelId it.clockAt).2 rest
       (next.1, userRowOf it txt :: next.2.1, next.2.2)) := by
  have hrep : generate_ai_reply cfg.hasModel env.svc cfg.persona cfg.character txt = "" := by
    unfold generate_ai_reply
    rcases hfail with hf | ⟨t, ht, htrim⟩
    · rw [hf]
      cases cfg.hasModel <;> simp
    · rw [ht]
      cases cfg.hasModel <;> simp [htrim, String.take_eq]
  have hitem : processItem cfg env table it =
      ((should_reply cfg table it.channelId it.clockAt).2, [userRowOf it txt], []) := by
    simp [processItem, htext, hrep]
  simp [processItems, hitem]

/-- An ordinary user text item as fetched by the watcher. -/
def sampleTextItem : Item :=
  { externalId := "m7", messageText := some "こんにちは"
    publishedAt := some "2024-01-01T00:00:00Z", displayName := some "alice"
    channelId := some "UC_alice", isChatOwner := false, isChatModerator := false
    clockAt := 1000 }

/-- Witness for C6: an authorized attempt whose service call fails appends
only the user record and sends nothing. -/
theorem generation_failure_skips_send_witness :
    processItems sampleGateCfg envFail [] [sampleTextItem] =
      (let next :=
        processItems sampleGateCfg envFail
          (should_reply sampleGateCfg [] sampleTextItem.channelId sampleTextItem.clockAt).2 []
       (next.1, userRowOf sampleTextItem "こんにちは" :: next.2.1, next.2.2)) :=
  generation_failure_skips_send sampleGateCfg envFail [] sampleTextItem [] "こんにちは"
    rfl
    (by simp [should_reply, sampleGateCfg, sampleTextItem, optTruthy, tableGet]; norm_num)
    (Or.inl rfl)

/-! ### C7: polling interval -/

/-- C7: the next sleep interval equals the transport-recommended value in
milliseconds divided by 1000, clamped below at 1 second, and equals
3 seconds when the transport omits `pollingIntervalMillis`. -/
theorem polling_interval_clamped (cfg : WatcherCfg) (env : Env) (st : WState)
    (page : Page) :
    (processPage cfg env st page).1.pollingInterval =
        max 1 ((page.pollingIntervalMillis.getD 3000) / 1000) ∧
    (∀ m : ℚ,
      (processPage cfg env st { page with pollingIntervalMillis := some m }).1.pollingInterval =
        max 1 (m / 1000)) ∧
    (processPage cfg env st { page with pollingIntervalMillis := none }).1.pollingInterval = 3 ∧
    1 ≤ (processPage cfg env st page).1.pollingInterval := by
  refine ⟨rfl, fun m => rfl, ?_, ?_⟩
  · show max 1 ((3000 : ℚ) / 1000) = 3
    norm_num
  · exact le_max_left _ _

/-! ### C8: non-text items are skipped -/

/-- C8: an item without text (a non-text event type) is skipped entirely:
no record is appended, nothing is sent, the rate table is untouched and the
loop proceeds to the remaining items unchanged. -/
theorem non_text_item_skipped (cfg : WatcherCfg) (env : Env) (table : RateTable)
    (it : Item) (rest : List Item) (h : it.messageText = none) :
    processItem cfg env table it = (table, [], []) ∧
    processItems cfg env table (it :: rest) = processItems cfg env table rest := by
  have h1 : processItem cfg env table it = (table, [], []) := by
    simp [processItem, h]
  refine ⟨h1, ?_⟩
  simp [processItems, h1]

/-- A non-text event (e.g. a Super Sticker) as fetched by the watcher. -/
def stickerItem : Item :=
  { externalId := "m9", messageText := none
    publishedAt := some "2024-01-01T00:00:01Z", displayName := some "bob"
    channelId := some "UC_bob", isChatOwner := false, isChatModerator := false
    clockAt := 1001 }

/-- Witness for C8: the sticker event produces no record and no decision. -/
theorem non_text_item_skipped_witness :
    processItem sampleGateCfg envFail [] stickerItem = ([], [], []) ∧
    processItems sampleGateCfg envFail [] [stickerItem] =
      processItems sampleGateCfg envFail [] [] :=
  non_text_item_skipped sampleGateCfg envFail [] stickerItem [] rfl

/-! ### C9: the prompt builder is deterministic -/

/-- C9: `build_persona_prompt` is a pure function of the persona name, the
character name and the character's reply hints — identical inputs (in
particular identical persona/character records) always yield identical
prompt text, with no randomness or hidden state. -/
theorem build_persona_prompt_deterministic (p₁ p₂ : Persona) (c₁ c₂ : Character)
    (hp : p₁.name = p₂.name) (hc : c₁.name = c₂.name)
    (hr : c₁.greetings.replies = c₂.greetings.replies) :
    build_persona_prompt p₁ c₁ = build_persona_prompt p₂ c₂ := by
  simp [build_persona_prompt, hp, hc, hr]

/-- Witness for C9: two persona records equal in name (differing in their
character lists) with one character yield the same prompt text. -/
theorem build_persona_prompt_deterministic_witness :
    build_persona_prompt { name := "デフォルト", characters := [] } sampleCharacter =
      build_persona_prompt samplePersona sampleCharacter :=
  build_persona_prompt_deterministic _ _ _ _ rfl rfl rfl

/-! ### C10: persona normalization -/

/-- A supplied greeting value that will not defeat normalization's
`or`-default: either falsy (replaced by the default) or a string. -/
def strOrFalsy : PyVal → Bool
  | .pystr _ => true
  | v => !truthy v

/-- A supplied replies value: either falsy (replaced by `[]`) or a list. -/
def listOrFalsy : PyVal → Bool
  | .pylist _ => true
  | v => !truthy v

/-- Well-shaped resolved greetings value: a dict with string-or-falsy
`start` / `end` and list-or-falsy `replies`. -/
def wfGreet : PyVal → Bool
  | .pydict gk =>
    strOrFalsy (dictGet gk "start") && strOrFalsy (dictGet gk "end") &&
      listOrFalsy (dictGet gk "replies")
  | _ => false

/-- Well-shaped character entry: a dict whose resolved greetings value is
well-shaped. -/
def wfChar : PyVal → Bool
  | .pydict ck =>
    wfGreet (pyOr (dictGet ck "greetings")
      (pyOr (dictGet ck "characterGreetings") (.pydict [])))
  | _ => false

/-- Well-shaped resolved characters value: a list of well-shaped entries. -/
def wfCharList : PyVal → Bool
  | .pylist cl => cl.all wfChar
  | _ => false

/-- Well-shaped persona entry: a dict whose resolved characters value is a
list of well-shaped character entries. -/
def wfPersona : PyVal → Bool
  | .pydict pk =>
    wfCharList (pyOr (dictGet pk "characters") (pyOr (dictGet pk "list") (.pylist [])))
  | _ => false

/-- Well-shaped resolved personas value: a list of well-shaped entries. -/
def wfPersonaList : PyVal → Bool
  | .pylist l => l.all wfPersona
  | _ => false

/-- Well-shaped input: a dict whose resolved personas value is a list of
well-shaped persona entries (an empty dict qualifies). -/
def wfRaw : PyVal → Bool
  | .pydict rk =>
    wfPersonaList (pyOr (dictGet rk "personas")
      (pyOr (dictGet rk "data") (pyOr (dictGet rk "list") (.pylist []))))
  | _ => false

/-- What the claim asks of every normalized character: non-empty start and
end greeting strings and a replies list. -/
def goodCharacter (cd : CharacterDyn) : Prop :=
  (∃ s, cd.greetings.start = .pystr s ∧ s ≠ "") ∧
  (∃ e, cd.greetings.endText = .pystr e ∧ e ≠ "") ∧
  ∃ rs, cd.greetings.replies = .pylist rs

lemma exceptBind_ok {α β : Type} (a : α) (f : α → Except PyErr β) :
    (Except.ok a >>= f) = f a := rfl

lemma exceptMap_ok {α β : Type} (f : α → β) (a : α) :
    (f <$> (Except.ok a : Except PyErr α)) = Except.ok (f a) := rfl

lemma exceptPure_eq_ok {α : Type} (a : α) :
    (pure a : Except PyErr α) = Except.ok a := rfl

lemma pyOr_of_truthy (v d : PyVal) (h : truthy v = true) : pyOr v d = v := by
  simp [pyOr, h]

lemma pyOr_of_not_truthy (v d : PyVal) (h : truthy v = false) : pyOr v d = d := by
  simp [pyOr, h]

lemma strOrFalsy_cases (v : PyVal) (h : strOrFalsy v = true) :
    truthy v = false ∨ ∃ s, v = .pystr s ∧ s ≠ "" := by
  cases v with
  | pystr s =>
    by_cases hs : s = ""
    · exact Or.inl (by simp [truthy, hs])
    · exact Or.inr ⟨s, rfl, hs⟩
  | pynone => exact Or.inl rfl
  | pyint n => exact Or.inl (by simpa [strOrFalsy] using h)
  | pylist xs => exact Or.inl (by simpa [strOrFalsy] using h)
  | pydict kvs => exact Or.inl (by simpa [strOrFalsy] using h)

lemma pyOr_str_default (v : PyVal) (d : String) (h : strOrFalsy v = true)
    (hd : d ≠ "") : ∃ s, pyOr v (.pystr d) = .pystr s ∧ s ≠ "" := by
  rcases strOrFalsy_cases v h with hf | ⟨s, rfl, hs⟩
  · exact ⟨d, pyOr_of_not_truthy _ _ hf, hd⟩
  · exact ⟨s, pyOr_of_truthy _ _ (by simp [truthy, hs]), hs⟩

lemma pyOr_list_default (v : PyVal) (d : List PyVal) (h : listOrFalsy v = true) :
    ∃ rs, pyOr v (.pylist d) = .pylist rs := by
  cases v with
  | pylist xs =>
    by_cases ht : truthy (.pylist xs) = true
    · exact ⟨xs, pyOr_of_truthy _ _ ht⟩
    · exact ⟨d, pyOr_of_not_truthy _ _ (by simpa using ht)⟩
  | pynone => exact ⟨d, pyOr_of_not_truthy _ _ rfl⟩
  | pyint n => exact ⟨d, pyOr_of_not_truthy _ _ (by simpa [listOrFalsy] using h)⟩
  | pystr s => exact ⟨d, pyOr_of_not_truthy _ _ (by simpa [listOrFalsy] using h)⟩
  | pydict kvs => exact ⟨d, pyOr_of_not_truthy _ _ (by simpa [listOrFalsy] using h)⟩

lemma normChar_wf (c : PyVal) (h : wfChar c = true) :
    ∃ cd, normChar c = .ok cd ∧ goodCharacter cd := by
  cases c with
  | pydict ck =>
    simp only [wfChar] at h
    rcases hg : pyOr (dictGet ck "greetings")
        (pyOr (dictGet ck "characterGreetings") (.pydict [])) with _ | n | s | xs | gk
    · rw [hg] at h; simp [wfGreet] at h
    · rw [hg] at h; simp [wfGreet] at h
    · rw [hg] at h; simp [wfGreet] at h
    · rw [hg] at h; simp [wfGreet] at h
    · rw [hg] at h
      simp only [wfGreet, Bool.and_eq_true] at h
      obtain ⟨⟨h1, h2⟩, h3⟩ := h
      obtain ⟨s, hs, hs0⟩ := pyOr_str_default _ defaultStartText h1 (by decide)
      obtain ⟨e, he, he0⟩ := pyOr_str_default _ defaultEndText h2 (by decide)
      obtain ⟨rs, hrs⟩ := pyOr_list_default _ [] h3
      refine ⟨{ name := pyOr (dictGet ck "name") (pyOr (dictGet ck "title") (.pystr "キャラ"))
                greetings :=
                  { start := pyOr (dictGet gk "start") (.pystr defaultStartText)
                    endText := pyOr (dictGet gk "end") (.pystr defaultEndText)
                    replies := pyOr (dictGet gk "replies") (.pylist []) } }, ?_, ?_⟩
      · simp only [normChar]
        rw [hg]
        rfl
      · exact ⟨⟨s, hs, hs0⟩, ⟨e, he, he0⟩, ⟨rs, hrs⟩⟩
  | pynone => simp [wfChar] at h
  | pyint n => simp [wfChar] at h
  | pystr s => simp [wfChar] at h
  | pylist xs => simp [wfChar] at h

lemma normCharList_wf (cl : List PyVal) (h : cl.all wfChar = true) :
    ∃ cs, normCharList cl = .ok cs ∧ ∀ cd ∈ cs, goodCharacter cd := by
  induction cl with
  | nil => exact ⟨[], rfl, by simp⟩
  | cons c rest ih =>
    simp only [List.all_cons, Bool.and_eq_true] at h
    obtain ⟨cd, hcd, hgood⟩ := normChar_wf c h.1
    obtain ⟨cs, hcs, hall⟩ := ih h.2
    refine ⟨cd :: cs, ?_, ?_⟩
    · simp [normCharList, hcd, hcs, exceptBind_ok, exceptPure_eq_ok]
    · intro x hx
      rcases List.mem_cons.mp hx with rfl | hx'
      · exact hgood
      · exact hall x hx'

lemma normPersona_wf (p : PyVal) (h : wfPersona p = true) :
    ∃ pd, normPersona p = .ok pd ∧ ∀ cd ∈ pd.characters, goodCharacter cd := by
  cases p with
  | pydict pk =>
    simp only [wfPersona] at h
    rcases hcr : pyOr (dictGet pk "characters")
        (pyOr (dictGet pk "list") (.pylist [])) with _ | n | s | cl | kvs
    · rw [hcr] at h; simp [wfCharList] at h
    · rw [hcr] at h; simp [wfCharList] at h
    · rw [hcr] at h; simp [wfCharList] at h
    · rw [hcr] at h
      simp only [wfCharList] at h
      obtain ⟨cs, hcs, hall⟩ := normCharList_wf cl h
      refine ⟨{ name := pyOr (dictGet pk "name") (pyOr (dictGet pk "title") (.pystr "デフォルト"))
                characters := cs }, ?_, hall⟩
      simp only [normPersona]
      rw [hcr]
      simp [pyIter, hcs, exceptBind_ok, exceptMap_ok, exceptPure_eq_ok]
    · rw [hcr] at h; simp [wfCharList] at h
  | pynone => simp [wfPersona] at h
  | pyint n => simp [wfPersona] at h
  | pystr s => simp [wfPersona] at h
  | pylist xs => simp [wfPersona] at h

lemma normPersonaList_wf (l : List PyVal) (h : l.all wfPersona = true) :
    ∃ ps, normPersonaList l = .ok ps ∧ ps.length = l.length ∧
      ∀ pd ∈ ps, ∀ cd ∈ pd.characters, goodCharacter cd := by
  induction l with
  | nil => exact ⟨[], rfl, rfl, by simp⟩
  | cons p rest ih =>
    simp only [List.all_cons, Bool.and_eq_true] at h
    obtain ⟨pd, hpd, hgood⟩ := normPersona_wf p h.1
    obtain ⟨ps, hps, hlen, hall⟩ := ih h.2
    refine ⟨pd :: ps, ?_, by simp [hlen], ?_⟩
    · simp [normPersonaList, hpd, hps, exceptBind_ok, exceptPure_eq_ok]
    · intro x hx
      rcases List.mem_cons.mp hx with rfl | hx'
      · exact hgood
      · exact hall x hx'

lemma defaultPersonas_good :
    ∀ pd ∈ defaultPersonas, ∀ cd ∈ pd.characters, goodCharacter cd := by
  intro pd hpd cd hcd
  simp [defaultPersonas] at hpd
  subst hpd
  simp at hcd
  subst hcd
  exact ⟨⟨_, rfl, by decide⟩, ⟨_, rfl, by decide⟩, ⟨_, rfl⟩⟩

/-- C10 (amended): for every well-shaped input dictionary — one whose
personas / characters / greetings entries, where truthy, have the expected
container types (missing keys, falsy values and the alternative keys
`data` / `list` / `title` / `characterGreetings` all allowed) —
`normalize_personas` returns a non-empty persona list in which every
character carries a non-empty start greeting string, a non-empty end
greeting string and a (possibly empty) replies list, substituting built-in
defaults for anything missing or falsy; ill-typed entries instead raise. -/
theorem normalize_personas_wf_defaults (raw : PyVal) (h : wfRaw raw = true) :
    ∃ ps, normalize_personas raw = .ok ps ∧ ps ≠ [] ∧
      ∀ pd ∈ ps, ∀ cd ∈ pd.characters, goodCharacter cd := by
  cases raw with
  | pydict rk =>
    simp only [wfRaw] at h
    rcases hit : pyOr (dictGet rk "personas")
        (pyOr (dictGet rk "data") (pyOr (dictGet rk "list") (.pylist [])))
      with _ | n | s | l | kvs
    · rw [hit] at h; simp [wfPersonaList] at h
    · rw [hit] at h; simp [wfPersonaList] at h
    · rw [hit] at h; simp [wfPersonaList] at h
    · rw [hit] at h
      simp only [wfPersonaList] at h
      obtain ⟨ps, hps, hlen, hall⟩ := normPersonaList_wf l h
      by_cases hemp : ps.isEmpty
      · refine ⟨defaultPersonas, ?_, by simp [defaultPersonas], defaultPersonas_good⟩
        simp only [normalize_personas]
        rw [hit]
        simp [pyIter, hps, hemp, exceptBind_ok, exceptMap_ok, exceptPure_eq_ok]
      · refine ⟨ps, ?_, by simpa [List.isEmpty_iff] using hemp, hall⟩
        simp only [normalize_personas]
        rw [hit]
        simp [pyIter, hps, hemp, exceptBind_ok, exceptMap_ok, exceptPure_eq_ok]
    · rw [hit] at h; simp [wfPersonaList] at h
  | pynone => simp [wfRaw] at h
  | pyint n => simp [wfRaw] at h
  | pystr s => simp [wfRaw] at h
  | pylist xs => simp [wfRaw] at h

/-- C10 counterexample: on the dictionary `{"personas": [0]}` — an input
dictionary, merely ill-typed inside — `normalize_personas` raises
`AttributeError` (the int `0` has no `.get`) instead of returning any
persona list, so the claim fails for malformed inputs. -/
theorem normalize_personas_illtyped_raises :
    normalize_personas (.pydict [("personas", .pylist [.pyint 0])]) =
      .error .attributeError := rfl

/-- Witness for C10 (amended): the empty dictionary is well-shaped and
normalizes to the non-empty built-in default persona list. -/
theorem normalize_personas_wf_defaults_witness :
    wfRaw (.pydict []) = true ∧
    ∃ ps, normalize_personas (.pydict []) = .ok ps ∧ ps ≠ [] ∧
      ∀ pd ∈ ps, ∀ cd ∈ pd.characters, goodCharacter cd :=
  ⟨rfl, normalize_personas_wf_defaults (.pydict []) rfl⟩

end YTBot
